import Mathlib

/-!
Shallow embedding of the tiny-dfr backlight and configuration subsystems
(`src/backlight.rs`, `src/config.rs`), together with theorems settling the
specification claims about them.

Machine integers (`u32`, `u16`, millisecond counts) are modelled as `Nat`;
the quantities involved are small and the source performs no wrapping
arithmetic on them outside of the floating-point brightness mapper, which is
kept abstract (see `computeTarget`).  File-system and device I/O is modelled
by explicit environment records that supply the outcome of each read.
-/

namespace TinyDfr

/-! ## Basic types shared by both modules -/

/-- Model of `input_linux::Key`: a key identified by its event code.
`Key.Esc` is event code 1 (`KEY_ESC`). -/
structure Key where
  code : Nat
deriving DecidableEq, Repr

def Key.Esc : Key := ⟨1⟩

/-- Model of `ButtonColor` from `config.rs` (the `f64` components are modelled as
rationals; no claim performs arithmetic on them). -/
inductive ButtonColor where
  | Grayscale (v : Rat)
  | Rgb (r g b : Rat)
deriving DecidableEq, Repr

/-- Model of `ButtonAction` from `config.rs`. -/
inductive ButtonAction where
  | Key (k : Key)
  | Command (s : String)
  | Expand (s : String)
  | HyprlandExpand (s : String)
  | KeyCombos (ks : List Key)
deriving DecidableEq, Repr

/-- Model of `ButtonConfig` from `config.rs` (field `class` of the Rust source is not
present here; all fields are carried verbatim). -/
structure ButtonConfig where
  icon : Option String
  text : Option String
  theme : Option String
  time : Option String
  battery : Option String
  locale : Option String
  action : ButtonAction
  stretch : Option Nat
  show_button_outlines : Option Bool
  button_outlines_color : Option ButtonColor
  show_app_icon_alongside_text : Option Bool
  app_icon : Option String
deriving DecidableEq, Repr

/-- Model of `HyprlandExpandConfig` from `config.rs`; the Rust field `class` is named
`cls` here because `class` is a Lean keyword. -/
structure HyprlandExpandConfig where
  cls : String
  button_title : Option String
  show_app_icon_alongside_text : Option Bool
  app_icon : Option String
  layer_keys : List ButtonConfig
deriving DecidableEq, Repr

/-- The scalar part of `Config` from `config.rs`.  The foreign-typed fields
(`font_face`, the map-typed `commands`/`expandables`/`hyprland_expandables`,
`user_env`) are modelled separately by `load_commands` and friends. -/
structure Config where
  show_button_outlines : Bool
  enable_pixel_shift : Bool
  adaptive_brightness : Bool
  active_brightness : Nat
  keyboard_brightness_step : Nat
  keyboard_brightness_enabled : Bool
  back_button_show_outlines : Bool
  back_button_outline_color : Option ButtonColor
  expandable_timeout_seconds : Nat
deriving DecidableEq, Repr

/-! ## Backlight module (`src/backlight.rs`) -/

def MAX_DISPLAY_BRIGHTNESS : Nat := 509

def MAX_TOUCH_BAR_BRIGHTNESS : Nat := 255

def DIMMED_BRIGHTNESS : Nat := 1

/-- Model of `BRIGHTNESS_DIM_TIMEOUT = TIMEOUT_MS * 3`.  `TIMEOUT_MS` lives in the
crate root (not under `src/`), so it is a parameter `timeoutMs` here. -/
def BRIGHTNESS_DIM_TIMEOUT (timeoutMs : Nat) : Nat := timeoutMs * 3

/-- Model of `BRIGHTNESS_OFF_TIMEOUT = TIMEOUT_MS * 6`. -/
def BRIGHTNESS_OFF_TIMEOUT (timeoutMs : Nat) : Nat := timeoutMs * 6

/-- Model of `libinput` switch state; `On` means the lid is closed. -/
inductive SwitchState where
  | On
  | Off
deriving DecidableEq, Repr

/-- Model of `libinput` switch kind. -/
inductive Switch where
  | Lid
  | TabletMode
deriving DecidableEq, Repr

/-- The input events distinguished by `BacklightManager::process_event`.
`SwitchToggle` carries `toggle.switch()` (an `Option<Switch>`) and
`toggle.switch_state()`. -/
inductive Event where
  | Keyboard
  | Pointer
  | Gesture
  | Touch
  | SwitchToggle (sw : Option Switch) (state : SwitchState)
  | Other
deriving DecidableEq, Repr

/-- Model of `BacklightManager` from `backlight.rs`.  `last_active` is a monotonic
timestamp in milliseconds; `bl_file` records whether a writable handle to the
brightness node exists; `display_bl_path` records whether the reference
display backlight was discovered. -/
structure BacklightManager where
  last_active : Nat
  max_bl : Nat
  current_bl : Nat
  lid_state : SwitchState
  bl_file : Bool
  display_bl_path : Bool
deriving DecidableEq, Repr

/-- Environment for `BacklightManager::new`: `find_result i` is the outcome
of the `(i+1)`-th call to `find_backlight()`, `open_ok` whether opening the
brightness node for writing succeeded, `max_attr`/`brightness_attr` the
outcomes of `read_attr_safe` on `max_brightness`/`brightness`,
`display_found` the outcome of `find_display_backlight()`, and `now` the
construction timestamp. -/
structure NewEnv where
  find_result : Nat → Option String
  open_ok : Bool
  max_attr : Option Nat
  brightness_attr : Option Nat
  display_found : Bool
  now : Nat

/-- The retry loop of `BacklightManager::new` (lines 88-105): call
`find_backlight()`; on failure with `attempts < 5`, sleep 1000 ms, increment
`attempts` and retry; on failure with `attempts ≥ 5`, give up with `None`.
The guard `attempts < 5` is encoded structurally by the fuel argument
(`fuel = 5 - attempts`, initially 5); the returned list records the sleeps
performed, one `1000` per retry. -/
def discoverLoop (find_result : Nat → Option String) :
    Nat → Nat → Option String × List Nat
  | attempts, 0 =>
    match find_result attempts with
    | some p => (some p, [])
    | none => (none, [])
  | attempts, fuel + 1 =>
    match find_result attempts with
    | some p => (some p, [])
    | none =>
      let r := discoverLoop find_result (attempts + 1) fuel
      (r.1, 1000 :: r.2)

/-- The complete discovery phase: start at `attempts = 0` with retry budget 5. -/
def find_backlight_with_retries (find_result : Nat → Option String) :
    Option String × List Nat :=
  discoverLoop find_result 0 5

/-- Model of `BacklightManager::new` (lines 86-130).  When discovery succeeds the
attribute reads fall back to `MAX_TOUCH_BAR_BRIGHTNESS` on failure; when it
fails the manager enters degraded mode: no device handle and fixed nominal
brightness. -/
def BacklightManager.new (env : NewEnv) : BacklightManager :=
  match (find_backlight_with_retries env.find_result).1 with
  | some _ =>
    { bl_file := env.open_ok
      max_bl := env.max_attr.getD MAX_TOUCH_BAR_BRIGHTNESS
      current_bl := env.brightness_attr.getD MAX_TOUCH_BAR_BRIGHTNESS
      lid_state := SwitchState.Off
      last_active := env.now
      display_bl_path := env.display_found }
  | none =>
    { bl_file := false
      max_bl := MAX_TOUCH_BAR_BRIGHTNESS
      current_bl := MAX_TOUCH_BAR_BRIGHTNESS
      lid_state := SwitchState.Off
      last_active := env.now
      display_bl_path := env.display_found }

/-- Model of `BacklightManager::process_event` (lines 137-153), with `Instant::now()`
passed in as `now`.  Activity-class events refresh `last_active`; a lid
toggle records the new state and, when the lid opens (`Off`), also refreshes
`last_active`. -/
def BacklightManager.process_event (st : BacklightManager) (now : Nat)
    (e : Event) : BacklightManager :=
  match e with
  | Event.Keyboard | Event.Pointer | Event.Gesture | Event.Touch =>
    { st with last_active := now }
  | Event.SwitchToggle (some Switch.Lid) s =>
    let st1 := { st with lid_state := s }
    if s = SwitchState.Off then { st1 with last_active := now } else st1
  | _ => st

/-- Environment of one `update_backlight` tick: the current monotonic time
and the live reading `read_attr(display_path, "brightness")` of the
reference display (only consulted in adaptive mode). -/
structure TickEnv where
  now : Nat
  display_brightness : Nat
deriving DecidableEq, Repr

/-- The brightness computation of `update_backlight` (lines 160-183).
`display_to_touchbar` is an `f64` computation (`powf(0.5)` and a truncating
cast); its bit-level semantics are not reproduced here, so it enters as the
abstract parameter `mapper`. -/
def computeTarget (mapper : Nat → Nat → Nat) (timeoutMs : Nat) (cfg : Config)
    (st : BacklightManager) (env : TickEnv) : Nat :=
  let since_last_active := env.now - st.last_active
  min st.max_bl
    (if st.lid_state = SwitchState.On then 0
     else if since_last_active < BRIGHTNESS_DIM_TIMEOUT timeoutMs then
       (if cfg.adaptive_brightness then
          (if st.display_bl_path then
             mapper env.display_brightness cfg.active_brightness
           else cfg.active_brightness)
        else cfg.active_brightness)
     else if since_last_active < BRIGHTNESS_OFF_TIMEOUT timeoutMs then
       DIMMED_BRIGHTNESS
     else 0)

/-- Model of `BacklightManager::update_backlight` (lines 154-190): early-return when
no device handle exists; otherwise compute the target and, only when it
differs from `current_bl`, record it and issue one write (the returned
`Option Nat` is the value written, `none` when no write happened). -/
def BacklightManager.update_backlight (st : BacklightManager)
    (mapper : Nat → Nat → Nat) (timeoutMs : Nat) (cfg : Config)
    (env : TickEnv) : BacklightManager × Option Nat :=
  if st.bl_file = false then (st, none)
  else
    let new_bl := computeTarget mapper timeoutMs cfg st env
    if st.current_bl ≠ new_bl then
      ({ st with current_bl := new_bl }, some new_bl)
    else (st, none)

/-- Model of `BacklightManager::current_bl` accessor is the structure field. -/
def BacklightManager.current_brightness (st : BacklightManager) : Nat :=
  st.current_bl

/-- The documented state invariant of `BacklightDevice`:
`0 ≤ current_brightness ≤ max_brightness`. -/
def brightnessInvariant (st : BacklightManager) : Prop :=
  0 ≤ st.current_bl ∧ st.current_bl ≤ st.max_bl

instance (st : BacklightManager) : Decidable (brightnessInvariant st) :=
  inferInstanceAs (Decidable (_ ∧ _))

/-- One operation of the controller: an input event (with its timestamp) or
one tick (with its environment and the config in force). -/
inductive Op where
  | event (now : Nat) (e : Event)
  | tick (cfg : Config) (env : TickEnv)

def runOp (mapper : Nat → Nat → Nat) (timeoutMs : Nat)
    (st : BacklightManager) : Op → BacklightManager
  | Op.event now e => st.process_event now e
  | Op.tick cfg env => (st.update_backlight mapper timeoutMs cfg env).1

def runOps (mapper : Nat → Nat → Nat) (timeoutMs : Nat)
    (st : BacklightManager) : List Op → BacklightManager
  | [] => st
  | op :: ops => runOps mapper timeoutMs (runOp mapper timeoutMs st op) ops

/-! ## Configuration module (`src/config.rs`) -/

/-- Model of `ConfigProxy` from `config.rs`: the raw, fully optional form each config
tier is parsed into. -/
structure ConfigProxy where
  media_layer_default : Option Bool
  show_button_outlines : Option Bool
  enable_pixel_shift : Option Bool
  font_template : Option String
  adaptive_brightness : Option Bool
  active_brightness : Option Nat
  primary_layer_keys : Option (List ButtonConfig)
  media_layer_keys : Option (List ButtonConfig)
  keyboard_brightness_step : Option Nat
  keyboard_brightness_enabled : Option Bool
  back_button_show_outlines : Option Bool
  back_button_outline_color : Option ButtonColor
  expandable_timeout_seconds : Option Nat
deriving DecidableEq, Repr

/-- The per-field override block of `load_config` (lines 316-328 and
338-350): each field of `base` is replaced by the overriding tier's value
when that value is present (`user.f.or(base.f)`). -/
def mergeProxy (base user : ConfigProxy) : ConfigProxy where
  media_layer_default := user.media_layer_default.or base.media_layer_default
  show_button_outlines := user.show_button_outlines.or base.show_button_outlines
  enable_pixel_shift := user.enable_pixel_shift.or base.enable_pixel_shift
  font_template := user.font_template.or base.font_template
  adaptive_brightness := user.adaptive_brightness.or base.adaptive_brightness
  active_brightness := user.active_brightness.or base.active_brightness
  primary_layer_keys := user.primary_layer_keys.or base.primary_layer_keys
  media_layer_keys := user.media_layer_keys.or base.media_layer_keys
  keyboard_brightness_step :=
    user.keyboard_brightness_step.or base.keyboard_brightness_step
  keyboard_brightness_enabled :=
    user.keyboard_brightness_enabled.or base.keyboard_brightness_enabled
  back_button_show_outlines :=
    user.back_button_show_outlines.or base.back_button_show_outlines
  back_button_outline_color :=
    user.back_button_outline_color.or base.back_button_outline_color
  expandable_timeout_seconds :=
    user.expandable_timeout_seconds.or base.expandable_timeout_seconds

/-- The tier-merging phase of `load_config` (lines 308-352).  `etcT` is the
system tier and `userT` the per-user tier; `none` means the tier's file was
absent or failed to parse, in which case it is skipped. -/
def load_config_merged (base : ConfigProxy) (etcT userT : Option ConfigProxy) :
    ConfigProxy :=
  let base1 := match etcT with
    | some u => mergeProxy base u
    | none => base
  match userT with
  | some u => mergeProxy base1 u
  | none => base1

/-- The fully-resolved scalar configuration produced by `load_config`
(lines 353-399): every mandatory field unwrapped, every optional field
defaulted. -/
structure ResolvedConfig where
  media_layer_default : Bool
  show_button_outlines : Bool
  enable_pixel_shift : Bool
  adaptive_brightness : Bool
  font_template : String
  active_brightness : Nat
  media_layer_keys : List ButtonConfig
  primary_layer_keys : List ButtonConfig
  keyboard_brightness_step : Nat
  keyboard_brightness_enabled : Bool
  back_button_show_outlines : Bool
  back_button_outline_color : Option ButtonColor
  expandable_timeout_seconds : Nat
deriving DecidableEq, Repr

/-- The unwrap/default phase of `load_config` (lines 353-354, 378,
383-395).  A Rust `unwrap()` panic on a missing mandatory field is modelled
as `none`; `unwrap_or` defaults are applied to the optional fields
(step 32, enabled true, outline false, timeout 5). -/
def resolveConfig (base : ConfigProxy) (etcT userT : Option ConfigProxy) :
    Option ResolvedConfig :=
  let m := load_config_merged base etcT userT
  do
    let media_layer_keys ← m.media_layer_keys
    let primary_layer_keys ← m.primary_layer_keys
    let media_layer_default ← m.media_layer_default
    let show_button_outlines ← m.show_button_outlines
    let enable_pixel_shift ← m.enable_pixel_shift
    let adaptive_brightness ← m.adaptive_brightness
    let font_template ← m.font_template
    let active_brightness ← m.active_brightness
    pure
      { media_layer_default := media_layer_default
        show_button_outlines := show_button_outlines
        enable_pixel_shift := enable_pixel_shift
        adaptive_brightness := adaptive_brightness
        font_template := font_template
        active_brightness := active_brightness
        media_layer_keys := media_layer_keys
        primary_layer_keys := primary_layer_keys
        keyboard_brightness_step := m.keyboard_brightness_step.getD 32
        keyboard_brightness_enabled := m.keyboard_brightness_enabled.getD true
        back_button_show_outlines := m.back_button_show_outlines.getD false
        back_button_outline_color := m.back_button_outline_color
        expandable_timeout_seconds := m.expandable_timeout_seconds.getD 5 }

/-- Modelled from the spec: "take the per-user value if present, else the
system value if present, else the package-default value if present".  This
is the spec-side per-field resolution rule, to be compared with the
source-side `load_config_merged`. -/
def tierPick {α : Type} (base : ConfigProxy) (etcT userT : Option ConfigProxy)
    (f : ConfigProxy → Option α) : Option α :=
  (userT.bind f).or ((etcT.bind f).or (f base))

/-- Modelled from the spec: the whole resolution described by the spec's
merge algorithm — per-field tier pick, mandatory fields failing when absent
at every tier, optional fields falling back to the documented default table
(keyboard brightness step 32, step enabled true, back-button outline false,
expandable timeout 5 seconds). -/
def specResolveConfig (base : ConfigProxy) (etcT userT : Option ConfigProxy) :
    Option ResolvedConfig := do
  let media_layer_keys ← tierPick base etcT userT (fun c => c.media_layer_keys)
  let primary_layer_keys ←
    tierPick base etcT userT (fun c => c.primary_layer_keys)
  let media_layer_default ←
    tierPick base etcT userT (fun c => c.media_layer_default)
  let show_button_outlines ←
    tierPick base etcT userT (fun c => c.show_button_outlines)
  let enable_pixel_shift ←
    tierPick base etcT userT (fun c => c.enable_pixel_shift)
  let adaptive_brightness ←
    tierPick base etcT userT (fun c => c.adaptive_brightness)
  let font_template ← tierPick base etcT userT (fun c => c.font_template)
  let active_brightness ←
    tierPick base etcT userT (fun c => c.active_brightness)
  pure
    { media_layer_default := media_layer_default
      show_button_outlines := show_button_outlines
      enable_pixel_shift := enable_pixel_shift
      adaptive_brightness := adaptive_brightness
      font_template := font_template
      active_brightness := active_brightness
      media_layer_keys := media_layer_keys
      primary_layer_keys := primary_layer_keys
      keyboard_brightness_step :=
        (tierPick base etcT userT (fun c => c.keyboard_brightness_step)).getD 32
      keyboard_brightness_enabled :=
        (tierPick base etcT userT
          (fun c => c.keyboard_brightness_enabled)).getD true
      back_button_show_outlines :=
        (tierPick base etcT userT
          (fun c => c.back_button_show_outlines)).getD false
      back_button_outline_color :=
        tierPick base etcT userT (fun c => c.back_button_outline_color)
      expandable_timeout_seconds :=
        (tierPick base etcT userT
          (fun c => c.expandable_timeout_seconds)).getD 5 }

/-! ### Map-typed artifacts (`load_commands`, `load_expandables`,
`load_hyprland_expandables`, lines 190-287) -/

/-- A `HashMap` is modelled by its lookup function. -/
def HashMapM (V : Type) : Type := String → Option V

/-- Model of `HashMap::new()`. -/
def emptyMap {V : Type} : HashMapM V := fun _ => none

/-- Model of `HashMap::extend`: entries of `delta` overwrite colliding keys of `m`. -/
def hashMapExtend {V : Type} (m delta : HashMapM V) : HashMapM V :=
  fun k => (delta k).or (m k)

/-- The shared shape of `load_commands` / `load_expandables` /
`load_hyprland_expandables`: start from an empty map and extend with each
tier's parsed content in order package-default, system, per-user; a tier
whose file is absent or unparsable (`none`) is skipped. -/
def loadTieredMap {V : Type} (baseT etcT userT : Option (HashMapM V)) :
    HashMapM V :=
  let m0 : HashMapM V := emptyMap
  let m1 := match baseT with
    | some t => hashMapExtend m0 t
    | none => m0
  let m2 := match etcT with
    | some t => hashMapExtend m1 t
    | none => m1
  match userT with
  | some t => hashMapExtend m2 t
  | none => m2

/-- Model of `load_commands` (lines 190-218). -/
def load_commands (baseT etcT userT : Option (HashMapM String)) :
    HashMapM String :=
  loadTieredMap baseT etcT userT

/-- Model of `load_expandables` (lines 229-257). -/
def load_expandables
    (baseT etcT userT : Option (HashMapM (List ButtonConfig))) :
    HashMapM (List ButtonConfig) :=
  loadTieredMap baseT etcT userT

/-- Model of `load_hyprland_expandables` (lines 259-287). -/
def load_hyprland_expandables
    (baseT etcT userT : Option (HashMapM (List HyprlandExpandConfig))) :
    HashMapM (List HyprlandExpandConfig) :=
  loadTieredMap baseT etcT userT

/-! ### Escape-key insertion (`load_config`, lines 355-375) -/

/-- The synthetic escape-key entry inserted by `load_config`. -/
def escButtonConfig : ButtonConfig where
  icon := none
  text := some "esc"
  theme := none
  action := ButtonAction.Key Key.Esc
  stretch := none
  time := none
  locale := none
  battery := none
  show_button_outlines := none
  button_outlines_color := none
  show_app_icon_alongside_text := none
  app_icon := none

/-- Lines 355-375 of `load_config`: when `width >= 2170`, insert the
synthetic escape entry at index 0 of both layer key sequences. -/
def insertEscapeKeys (width : Nat)
    (media_layer_keys primary_layer_keys : List ButtonConfig) :
    List ButtonConfig × List ButtonConfig :=
  if width ≥ 2170 then
    (escButtonConfig :: media_layer_keys, escButtonConfig :: primary_layer_keys)
  else
    (media_layer_keys, primary_layer_keys)

/-! ### `ConfigManager` (lines 402-474) -/

/-- An inotify watch descriptor. -/
structure WatchDescriptor where
  id : Nat
deriving DecidableEq, Repr

/-- An inotify event, as consumed by `handle_events` (only the watch
descriptor is inspected). -/
structure InotifyEvent where
  wd : WatchDescriptor
deriving DecidableEq, Repr

/-- The mutable state of `ConfigManager`: the two optional one-shot watch
descriptors (system tier and user tier). -/
structure ConfigManager where
  watch_desc_etc : Option WatchDescriptor
  watch_desc_user : Option WatchDescriptor
deriving DecidableEq, Repr

/-- Environment of one `update_config` poll, over an abstract type `γ` for
the `(Config, [FunctionLayer; 2])` pair held by the caller:
* `arm_etc` — the result `arm_inotify(fd, ETC_CFG_PATH)` would return;
* `user_config_path` — `detect_user_config_paths().config`;
* `arm_user` — the result `arm_inotify` on that path would return;
* `pending` — the events `read_events()` would drain (`[]` models `EAGAIN`);
* `reload` — the `(Config, layers)` pair `load_config(width)` would build. -/
structure PollEnv (γ : Type) where
  arm_etc : Option WatchDescriptor
  user_config_path : Option String
  arm_user : Option WatchDescriptor
  pending : List InotifyEvent
  reload : γ

/-- Model of `ConfigManager::handle_events` (lines 456-474): for each drained event
whose descriptor matches either tracked watch, re-resolve the config
(replacing the caller's pair wholesale), set the return flag, and re-arm
both watches. -/
def ConfigManager.handle_events {γ : Type} (st : ConfigManager) (cl : γ)
    (env : PollEnv γ) (evts : List InotifyEvent) : ConfigManager × γ × Bool :=
  evts.foldl
    (fun acc evt =>
      let st := acc.1
      let cl := acc.2.1
      let ret := acc.2.2
      if some evt.wd = st.watch_desc_etc ∨ some evt.wd = st.watch_desc_user then
        let cl := env.reload
        let st1 := { st with watch_desc_etc := env.arm_etc }
        let st2 := match env.user_config_path with
          | some _ => { st1 with watch_desc_user := env.arm_user }
          | none => st1
        (st2, cl, true)
      else (st, cl, ret))
    (st, cl, false)

/-- Model of `ConfigManager::update_config` (lines 436-455).  The result carries the
new manager state, the caller's (possibly replaced) config+layout pair, the
"reload occurred" flag, and the events still pending in the inotify queue
(equal to `env.pending` exactly when no `read_events` call was made). -/
def ConfigManager.update_config {γ : Type} (st : ConfigManager) (cl : γ)
    (env : PollEnv γ) : ConfigManager × γ × Bool × List InotifyEvent :=
  let st1 := if st.watch_desc_etc = none then
      { st with watch_desc_etc := env.arm_etc }
    else st
  if st1.watch_desc_user = none then
    let st2 := match env.user_config_path with
      | some _ => { st1 with watch_desc_user := env.arm_user }
      | none => st1
    (st2, cl, false, env.pending)
  else
    match env.pending with
    | [] => (st1, cl, false, [])
    | evts =>
      let r := st1.handle_events cl env evts
      (r.1, r.2.1, r.2.2, [])

/-! ### `ButtonAction` deserialization (lines 73-110) -/

/-- Rust `str::starts_with`, on the underlying character sequences. -/
def rustStartsWith (s p : String) : Bool :=
  p.data.isPrefixOf s.data

/-- The tail of `ButtonAction::deserialize` shared by the two fall-through
paths (after the `Hyprland_Expand_` and `KeyCombos_` checks): try
`Expand_`, then a `Key` name, else `Command`.  `keyParse` abstracts the
serde deserialization of `input_linux::Key` from a string. -/
def deserializeTail (keyParse : String → Option Key) (s : String) :
    ButtonAction :=
  if rustStartsWith s "Expand_" then ButtonAction.Expand s
  else
    match keyParse s with
    | some k => ButtonAction.Key k
    | none => ButtonAction.Command s

/-- Model of `ButtonAction::deserialize` (lines 73-110), applied to an input that
already deserialized to a string `s` (the only fallible step of the source
is obtaining that string).  `keyCombos` abstracts
`crate::hyprland::parse_key_combos`, which lives outside `src/`. -/
def buttonActionDeserialize (keyCombos : String → List Key)
    (keyParse : String → Option Key) (s : String) :
    Except String ButtonAction :=
  if rustStartsWith s "Hyprland_Expand_" then
    Except.ok (ButtonAction.HyprlandExpand s)
  else if rustStartsWith s "KeyCombos_" then
    let keys := keyCombos s
    if keys.isEmpty then Except.ok (deserializeTail keyParse s)
    else Except.ok (ButtonAction.KeyCombos keys)
  else Except.ok (deserializeTail keyParse s)

/-! ### Sample values used to instantiate theorems with hypotheses -/

def sampleMapper : Nat → Nat → Nat := fun d a => d + a

def sampleConfig : Config where
  show_button_outlines := true
  enable_pixel_shift := false
  adaptive_brightness := false
  active_brightness := 128
  keyboard_brightness_step := 32
  keyboard_brightness_enabled := true
  back_button_show_outlines := false
  back_button_outline_color := none
  expandable_timeout_seconds := 5

def sampleManager : BacklightManager where
  last_active := 0
  max_bl := 255
  current_bl := 100
  lid_state := SwitchState.Off
  bl_file := true
  display_bl_path := false

def sampleTickEnv : TickEnv := { now := 5, display_brightness := 50 }

def sampleTickEnv2 : TickEnv := { now := 6, display_brightness := 50 }

/-- A construction environment whose device reports a brightness above its
own maximum. -/
def overReportEnv : NewEnv where
  find_result := fun _ => some "appletb_backlight"
  open_ok := true
  max_attr := some 255
  brightness_attr := some 509
  display_found := false
  now := 0

/-- A construction environment with consistent device readings. -/
def sampleNewEnv : NewEnv where
  find_result := fun _ => some "appletb_backlight"
  open_ok := true
  max_attr := some 255
  brightness_attr := some 200
  display_found := true
  now := 0

/-- Discovery environment: the device node is absent for the first four
`find_backlight()` calls and appears on the fifth. -/
def lateDeviceEnv : NewEnv where
  find_result := fun i => if i = 4 then some "228600000.dsi.0" else none
  open_ok := true
  max_attr := some 255
  brightness_attr := some 10
  display_found := false
  now := 0

/-- Discovery environment: the device node never appears. -/
def absentDeviceEnv : NewEnv where
  find_result := fun _ => none
  open_ok := false
  max_attr := none
  brightness_attr := none
  display_found := false
  now := 0

def sampleCM : ConfigManager where
  watch_desc_etc := some ⟨1⟩
  watch_desc_user := none

def samplePollEnv : PollEnv Nat where
  arm_etc := some ⟨1⟩
  user_config_path := some "/home/u/.config/tiny-dfr/config.toml"
  arm_user := some ⟨2⟩
  pending := [⟨⟨1⟩⟩]
  reload := 42

/-! ## Theorems -/

/-- With a device handle present, a tick leaves `current_bl` equal to the
computed target (whether or not a write was needed). -/
theorem update_backlight_current_eq (st : BacklightManager)
    (mapper : Nat → Nat → Nat) (timeoutMs : Nat) (cfg : Config)
    (env : TickEnv) (h : st.bl_file = true) :
    (st.update_backlight mapper timeoutMs cfg env).1.current_bl =
      computeTarget mapper timeoutMs cfg st env := by
  unfold BacklightManager.update_backlight
  rw [h]
  by_cases hc : st.current_bl = computeTarget mapper timeoutMs cfg st env
  · simp [hc]
  · simp [hc]

/-- Every write issued by a tick carries the computed target value. -/
theorem update_backlight_write_eq (st : BacklightManager)
    (mapper : Nat → Nat → Nat) (timeoutMs : Nat) (cfg : Config) (env : TickEnv)
    (w : Nat) (hw : (st.update_backlight mapper timeoutMs cfg env).2 = some w) :
    w = computeTarget mapper timeoutMs cfg st env := by
  unfold BacklightManager.update_backlight at hw
  split at hw
  · simp at hw
  · by_cases hc : st.current_bl = computeTarget mapper timeoutMs cfg st env
    · simp [hc] at hw
    · simp only [hc, ne_eq, not_false_iff, if_true, Option.some.injEq] at hw
      simp [hw.symm]

/-- C1: for every tick on a controller with a discovered device, the
resulting brightness (and the value of any write issued) is
`min(device max, v)` where `v` is 0 when the lid is closed; else the
configured active brightness — or, in adaptive mode with a reference
display present, the brightness-mapper result over the live reference
reading — while elapsed < 3·base_interval; else the dimmed constant 1 while
elapsed < 6·base_interval; else 0. -/
theorem c1_tick_target (mapper : Nat → Nat → Nat) (timeoutMs : Nat)
    (cfg : Config) (st : BacklightManager) (env : TickEnv)
    (h : st.bl_file = true) :
    (st.update_backlight mapper timeoutMs cfg env).1.current_bl =
      min st.max_bl
        (if st.lid_state = SwitchState.On then 0
         else if env.now - st.last_active < 3 * timeoutMs then
           (if cfg.adaptive_brightness && st.display_bl_path then
              mapper env.display_brightness cfg.active_brightness
            else cfg.active_brightness)
         else if env.now - st.last_active < 6 * timeoutMs then 1
         else 0) ∧
    (∀ w, (st.update_backlight mapper timeoutMs cfg env).2 = some w →
      w = min st.max_bl
        (if st.lid_state = SwitchState.On then 0
         else if env.now - st.last_active < 3 * timeoutMs then
           (if cfg.adaptive_brightness && st.display_bl_path then
              mapper env.display_brightness cfg.active_brightness
            else cfg.active_brightness)
         else if env.now - st.last_active < 6 * timeoutMs then 1
         else 0)) := by
  have hts : computeTarget mapper timeoutMs cfg st env =
      min st.max_bl
        (if st.lid_state = SwitchState.On then 0
         else if env.now - st.last_active < 3 * timeoutMs then
           (if cfg.adaptive_brightness && st.display_bl_path then
              mapper env.display_brightness cfg.active_brightness
            else cfg.active_brightness)
         else if env.now - st.last_active < 6 * timeoutMs then 1
         else 0) := by
    unfold computeTarget BRIGHTNESS_DIM_TIMEOUT BRIGHTNESS_OFF_TIMEOUT
      DIMMED_BRIGHTNESS
    rw [Nat.mul_comm timeoutMs 3, Nat.mul_comm timeoutMs 6]
    cases ha : cfg.adaptive_brightness <;> cases hd : st.display_bl_path <;>
      simp [ha, hd]
  refine ⟨?_, ?_⟩
  · rw [update_backlight_current_eq st mapper timeoutMs cfg env h, hts]
  · intro w hw
    rw [← hts]
    exact update_backlight_write_eq st mapper timeoutMs cfg env w hw

/-- C1 witness: a concrete active-window tick on a manager holding a device
handle lands on the configured active brightness. -/
theorem c1_tick_target_witness :
    (sampleManager.update_backlight sampleMapper 10 sampleConfig
      sampleTickEnv).1.current_bl = 128 :=
  (c1_tick_target sampleMapper 10 sampleConfig sampleManager sampleTickEnv
    rfl).1

/-- A tick never changes the device handle nor the recorded device maximum. -/
theorem update_backlight_fields (st : BacklightManager)
    (mapper : Nat → Nat → Nat) (timeoutMs : Nat) (cfg : Config)
    (env : TickEnv) :
    (st.update_backlight mapper timeoutMs cfg env).1.max_bl = st.max_bl ∧
    (st.update_backlight mapper timeoutMs cfg env).1.bl_file = st.bl_file := by
  unfold BacklightManager.update_backlight
  split
  · exact ⟨rfl, rfl⟩
  · by_cases hc : st.current_bl = computeTarget mapper timeoutMs cfg st env
    · simp [hc]
    · simp [hc]

/-- A tick whose computed target equals the last written value issues no
write. -/
theorem update_backlight_no_write (st : BacklightManager)
    (mapper : Nat → Nat → Nat) (timeoutMs : Nat) (cfg : Config) (env : TickEnv)
    (h : computeTarget mapper timeoutMs cfg st env = st.current_bl) :
    (st.update_backlight mapper timeoutMs cfg env).2 = none := by
  unfold BacklightManager.update_backlight
  split
  · rfl
  · simp [h]

/-- C9: with a device handle present, a write is issued iff the computed
target differs from the last written value; and a second tick whose computed
target matches the first one's issues no write. -/
theorem c9_idempotent_writes (mapper : Nat → Nat → Nat) (timeoutMs : Nat)
    (cfg : Config) (st : BacklightManager) (env1 env2 : TickEnv)
    (h : st.bl_file = true) :
    ((st.update_backlight mapper timeoutMs cfg env1).2.isSome = true ↔
      computeTarget mapper timeoutMs cfg st env1 ≠ st.current_bl) ∧
    (computeTarget mapper timeoutMs cfg
        (st.update_backlight mapper timeoutMs cfg env1).1 env2 =
      computeTarget mapper timeoutMs cfg st env1 →
      ((st.update_backlight mapper timeoutMs cfg env1).1.update_backlight
        mapper timeoutMs cfg env2).2 = none) := by
  constructor
  · unfold BacklightManager.update_backlight
    rw [h]
    by_cases hc : st.current_bl = computeTarget mapper timeoutMs cfg st env1
    · simp [hc]
    · simp [hc, Ne.symm hc]
  · intro heq
    have hcur : (st.update_backlight mapper timeoutMs cfg env1).1.current_bl =
        computeTarget mapper timeoutMs cfg st env1 :=
      update_backlight_current_eq st mapper timeoutMs cfg env1 h
    exact update_backlight_no_write _ mapper timeoutMs cfg env2
      (by rw [heq, hcur])

/-- C9 witness: a first tick writes the active brightness, a second tick in
the same activity window issues no write. -/
theorem c9_idempotent_writes_witness :
    ((sampleManager.update_backlight sampleMapper 10 sampleConfig
      sampleTickEnv).1.update_backlight sampleMapper 10 sampleConfig
      sampleTickEnv2).2 = none :=
  (c9_idempotent_writes sampleMapper 10 sampleConfig sampleManager
    sampleTickEnv sampleTickEnv2 rfl).2 rfl

/-- Processing an event never changes the brightness bookkeeping. -/
theorem process_event_brightness_fields (st : BacklightManager) (now : Nat)
    (e : Event) :
    (st.process_event now e).current_bl = st.current_bl ∧
    (st.process_event now e).max_bl = st.max_bl := by
  cases e with
  | Keyboard => exact ⟨rfl, rfl⟩
  | Pointer => exact ⟨rfl, rfl⟩
  | Gesture => exact ⟨rfl, rfl⟩
  | Touch => exact ⟨rfl, rfl⟩
  | Other => exact ⟨rfl, rfl⟩
  | SwitchToggle sw s =>
    cases sw with
    | none => exact ⟨rfl, rfl⟩
    | some sw' =>
      cases sw' with
      | TabletMode => exact ⟨rfl, rfl⟩
      | Lid =>
        by_cases hs : s = SwitchState.Off <;>
          simp [BacklightManager.process_event, hs]

/-- The computed tick target never exceeds the recorded device maximum. -/
theorem computeTarget_le_max (mapper : Nat → Nat → Nat) (timeoutMs : Nat)
    (cfg : Config) (st : BacklightManager) (env : TickEnv) :
    computeTarget mapper timeoutMs cfg st env ≤ st.max_bl := by
  unfold computeTarget
  exact Nat.min_le_left _ _

/-- One operation preserves the brightness invariant. -/
theorem runOp_preserves_invariant (mapper : Nat → Nat → Nat) (timeoutMs : Nat)
    (st : BacklightManager) (op : Op) (h : brightnessInvariant st) :
    brightnessInvariant (runOp mapper timeoutMs st op) := by
  cases op with
  | event now e =>
    have hf := process_event_brightness_fields st now e
    exact ⟨Nat.zero_le _, by simp only [runOp, hf.1, hf.2]; exact h.2⟩
  | tick cfg env =>
    by_cases hb : st.bl_file = true
    · refine ⟨Nat.zero_le _, ?_⟩
      have hc := update_backlight_current_eq st mapper timeoutMs cfg env hb
      have hm := (update_backlight_fields st mapper timeoutMs cfg env).1
      simp only [runOp, hc, hm]
      exact computeTarget_le_max mapper timeoutMs cfg st env
    · have hb' : st.bl_file = false := by
        cases hfile : st.bl_file
        · rfl
        · exact absurd hfile hb
      simp only [runOp, BacklightManager.update_backlight, hb', if_pos rfl]
      exact h

/-- Every sequence of operations preserves the brightness invariant. -/
theorem runOps_preserves_invariant (mapper : Nat → Nat → Nat)
    (timeoutMs : Nat) (ops : List Op) (st : BacklightManager)
    (h : brightnessInvariant st) :
    brightnessInvariant (runOps mapper timeoutMs st ops) := by
  induction ops generalizing st with
  | nil => exact h
  | cons op ops ih =>
    exact ih _ (runOp_preserves_invariant mapper timeoutMs st op h)

/-- C3 counterexample: construction does not clamp the device-reported
brightness, so a device whose `brightness` attribute (509) exceeds its
`max_brightness` attribute (255) violates the invariant immediately after
`BacklightManager::new`. -/
theorem c3_invariant_counterexample :
    ¬ brightnessInvariant (BacklightManager.new overReportEnv) := by
  decide

/-- C3 (amended): provided the device-reported brightness (with its 255
fallback) does not exceed the device-reported maximum (with its 255
fallback), the invariant `0 ≤ current_brightness ≤ max_brightness` holds
after construction — unconditionally so in degraded mode — and is preserved
by every sequence of `process_event` and `update_backlight` operations. -/
theorem c3_invariant_amended (env : NewEnv) (mapper : Nat → Nat → Nat)
    (timeoutMs : Nat) (ops : List Op)
    (h : env.brightness_attr.getD MAX_TOUCH_BAR_BRIGHTNESS ≤
      env.max_attr.getD MAX_TOUCH_BAR_BRIGHTNESS) :
    brightnessInvariant (BacklightManager.new env) ∧
    brightnessInvariant
      (runOps mapper timeoutMs (BacklightManager.new env) ops) := by
  have hnew : brightnessInvariant (BacklightManager.new env) := by
    unfold BacklightManager.new
    cases hd : (find_backlight_with_retries env.find_result).1 with
    | some p => exact ⟨Nat.zero_le _, h⟩
    | none => exact ⟨Nat.zero_le _, Nat.le_refl _⟩
  exact ⟨hnew, runOps_preserves_invariant mapper timeoutMs ops _ hnew⟩

/-- C3 witness: a well-behaved construction followed by an input event and a
tick keeps the invariant. -/
theorem c3_invariant_amended_witness :
    brightnessInvariant
      (runOps sampleMapper 10 (BacklightManager.new sampleNewEnv)
        [Op.event 3 Event.Keyboard, Op.tick sampleConfig sampleTickEnv]) :=
  (c3_invariant_amended sampleNewEnv sampleMapper 10
    [Op.event 3 Event.Keyboard, Op.tick sampleConfig sampleTickEnv]
    (by decide)).2

/-- If every probe within the remaining budget fails, the retry loop returns
`none`. -/
theorem discoverLoop_all_none (fr : Nat → Option String) (fuel attempts : Nat)
    (h : ∀ j, attempts ≤ j → j ≤ attempts + fuel → fr j = none) :
    (discoverLoop fr attempts fuel).1 = none := by
  induction fuel generalizing attempts with
  | zero =>
    unfold discoverLoop
    rw [h attempts (Nat.le_refl _) (by omega)]
  | succ f ih =>
    unfold discoverLoop
    rw [h attempts (Nat.le_refl _) (by omega)]
    exact ih (attempts + 1) (fun j h1 h2 => h j (by omega) (by omega))

/-- If the first successful probe lies within the remaining budget, the
retry loop returns its result. -/
theorem discoverLoop_first_success (fr : Nat → Option String)
    (fuel attempts i : Nat) (p : String) (h1 : attempts ≤ i)
    (h2 : i ≤ attempts + fuel)
    (h3 : ∀ j, attempts ≤ j → j < i → fr j = none) (h4 : fr i = some p) :
    (discoverLoop fr attempts fuel).1 = some p := by
  induction fuel generalizing attempts with
  | zero =>
    have hai : attempts = i := by omega
    subst hai
    unfold discoverLoop
    rw [h4]
  | succ f ih =>
    by_cases hai : attempts = i
    · subst hai
      unfold discoverLoop
      rw [h4]
    · have hlt : attempts < i := Nat.lt_of_le_of_ne h1 hai
      unfold discoverLoop
      rw [h3 attempts (Nat.le_refl _) hlt]
      exact ih (attempts + 1) (by omega) (by omega)
        (fun j hj1 hj2 => h3 j (by omega) hj2)

/-- The retry loop performs at most `fuel` sleeps, each of 1000 ms. -/
theorem discoverLoop_sleeps (fr : Nat → Option String) (fuel attempts : Nat) :
    (discoverLoop fr attempts fuel).2.length ≤ fuel ∧
    ∀ s ∈ (discoverLoop fr attempts fuel).2, s = 1000 := by
  induction fuel generalizing attempts with
  | zero =>
    unfold discoverLoop
    cases hf : fr attempts <;> simp
  | succ f ih =>
    unfold discoverLoop
    cases hf : fr attempts with
    | some p => simp
    | none =>
      refine ⟨?_, ?_⟩
      · simpa using Nat.succ_le_succ (ih (attempts + 1)).1
      · intro s hs
        simp only [List.mem_cons] at hs
        rcases hs with hs | hs
        · exact hs
        · exact (ih (attempts + 1)).2 s hs

/-- C7: strip-backlight discovery probes the device up to six times (the
initial attempt plus five retries, each after a fixed 1000 ms sleep): the
first success within that budget is returned, and if every attempt fails the
constructor still returns a manager, in degraded mode — no device handle and
the fixed nominal brightness. -/
theorem c7_discovery_retry (env : NewEnv) :
    (∀ i p, i ≤ 5 → env.find_result i = some p →
      (∀ j, j < i → env.find_result j = none) →
      (find_backlight_with_retries env.find_result).1 = some p) ∧
    ((∀ i, i ≤ 5 → env.find_result i = none) →
      (find_backlight_with_retries env.find_result).1 = none ∧
      (BacklightManager.new env).bl_file = false ∧
      (BacklightManager.new env).max_bl = MAX_TOUCH_BAR_BRIGHTNESS ∧
      (BacklightManager.new env).current_bl = MAX_TOUCH_BAR_BRIGHTNESS) ∧
    ((find_backlight_with_retries env.find_result).2.length ≤ 5 ∧
      ∀ s ∈ (find_backlight_with_retries env.find_result).2, s = 1000) := by
  refine ⟨?_, ?_, discoverLoop_sleeps env.find_result 5 0⟩
  · intro i p hi hp hbefore
    exact discoverLoop_first_success env.find_result 5 0 i p (Nat.zero_le _)
      (by omega) (fun j _ hj => hbefore j hj) hp
  · intro hall
    have hnone : (find_backlight_with_retries env.find_result).1 = none :=
      discoverLoop_all_none env.find_result 5 0 (fun j _ hj => hall j (by omega))
    refine ⟨hnone, ?_, ?_, ?_⟩ <;>
      · unfold BacklightManager.new
        rw [hnone]

/-- C7 witness: a device absent for four probes and present on the fifth is
discovered; a device absent for all six probes leaves the constructor in
degraded mode. -/
theorem c7_discovery_retry_witness :
    (find_backlight_with_retries lateDeviceEnv.find_result).1 =
      some "228600000.dsi.0" ∧
    (BacklightManager.new absentDeviceEnv).bl_file = false := by
  constructor
  · exact (c7_discovery_retry lateDeviceEnv).1 4 "228600000.dsi.0" (by decide)
      (by decide) (by decide)
  · exact ((c7_discovery_retry absentDeviceEnv).2.1 (fun i _ => rfl)).2.1

/-- C8: a poll entered while the user-tier watch is unarmed arms what it can
and reports "no change" without touching anything else: the return flag is
`false`, the caller's config/layout pair is untouched, every pending inotify
event is left unread, and the user-tier watch now holds the arming result
exactly when a per-user config path could be resolved. -/
theorem c8_unarmed_user_poll {γ : Type} (st : ConfigManager) (cl : γ)
    (env : PollEnv γ) (h : st.watch_desc_user = none) :
    (st.update_config cl env).2.2.1 = false ∧
    (st.update_config cl env).2.1 = cl ∧
    (st.update_config cl env).2.2.2 = env.pending ∧
    (st.update_config cl env).1.watch_desc_user =
      (match env.user_config_path with
       | some _ => env.arm_user
       | none => none) := by
  unfold ConfigManager.update_config
  by_cases he : st.watch_desc_etc = none <;>
    cases hu : env.user_config_path <;>
      simp [he, h, hu]

/-- C8 witness: a concrete poll with an unarmed user watch, a pending event
on the armed system watch, and a resolvable user path returns `false`,
leaves the pending event unread and the caller's value 7 in place, and arms
the user watch. -/
theorem c8_unarmed_user_poll_witness :
    (sampleCM.update_config 7 samplePollEnv).2.2.1 = false ∧
    (sampleCM.update_config 7 samplePollEnv).2.1 = 7 ∧
    (sampleCM.update_config 7 samplePollEnv).2.2.2 = samplePollEnv.pending ∧
    (sampleCM.update_config 7 samplePollEnv).1.watch_desc_user = some ⟨2⟩ :=
  c8_unarmed_user_poll sampleCM 7 samplePollEnv rfl

/-- C4: the source's sequential two-stage override merge followed by
unwrap/default resolution coincides, for every combination of tiers, with
the spec's per-field rule — per-user value if present, else system value,
else package default; mandatory fields fail resolution when absent at every
tier, and the optional fields fall back to the documented defaults
(keyboard brightness step 32, step enabled true, back-button outline false,
expandable timeout 5 seconds). -/
theorem c4_scalar_resolution (base : ConfigProxy)
    (etcT userT : Option ConfigProxy) :
    resolveConfig base etcT userT = specResolveConfig base etcT userT := by
  cases etcT <;> cases userT <;> rfl

/-- The lookup semantics of the three-tier `HashMap` layering: later tiers
win per key, absent tiers are skipped. -/
theorem loadTieredMap_lookup {V : Type} (baseT etcT userT : Option (HashMapM V))
    (k : String) :
    loadTieredMap baseT etcT userT k =
      (userT.bind (fun t => t k)).or
        ((etcT.bind (fun t => t k)).or (baseT.bind (fun t => t k))) := by
  cases baseT <;> cases etcT <;> cases userT <;>
    simp [loadTieredMap, hashMapExtend, emptyMap, Option.or_none,
      Option.or_assoc]

/-- C5: every map-typed artifact — commands, expandables, per-app expansion
rules — resolves per key to the per-user entry if present, else the system
entry, else the package-default entry; a tier that is absent or unparsable
is skipped and the remaining tiers still merge. -/
theorem c5_map_merge (k : String) :
    (∀ baseT etcT userT : Option (HashMapM String),
      load_commands baseT etcT userT k =
        (userT.bind (fun t => t k)).or
          ((etcT.bind (fun t => t k)).or (baseT.bind (fun t => t k)))) ∧
    (∀ baseT etcT userT : Option (HashMapM (List ButtonConfig)),
      load_expandables baseT etcT userT k =
        (userT.bind (fun t => t k)).or
          ((etcT.bind (fun t => t k)).or (baseT.bind (fun t => t k)))) ∧
    (∀ baseT etcT userT : Option (HashMapM (List HyprlandExpandConfig)),
      load_hyprland_expandables baseT etcT userT k =
        (userT.bind (fun t => t k)).or
          ((etcT.bind (fun t => t k)).or (baseT.bind (fun t => t k)))) :=
  ⟨fun b e u => loadTieredMap_lookup b e u k,
   fun b e u => loadTieredMap_lookup b e u k,
   fun b e u => loadTieredMap_lookup b e u k⟩

/-- C6: a strip width of 2170 or more prepends exactly one synthetic escape
entry to both layer key sequences; a width of 2169 or less leaves both
sequences exactly as they came out of the merged config. -/
theorem c6_escape_key_insertion (width : Nat)
    (media primary : List ButtonConfig) :
    (2170 ≤ width →
      insertEscapeKeys width media primary =
        (escButtonConfig :: media, escButtonConfig :: primary)) ∧
    (width ≤ 2169 → insertEscapeKeys width media primary = (media, primary)) := by
  constructor
  · intro h
    simp [insertEscapeKeys, h]
  · intro h
    have h' : ¬ (2170 ≤ width) := by omega
    simp [insertEscapeKeys, h']

/-- C6 witness: width 2170 prepends the escape entry to both layers, width
2169 prepends none. -/
theorem c6_escape_key_insertion_witness :
    insertEscapeKeys 2170 [] [] = ([escButtonConfig], [escButtonConfig]) ∧
    insertEscapeKeys 2169 [] [] = ([], []) :=
  ⟨(c6_escape_key_insertion 2170 [] []).1 (by decide),
   (c6_escape_key_insertion 2169 [] []).2 (by decide)⟩

/-- Two string prefixes of the same string are comparable, so a string
cannot start with two incomparable prefixes at once. -/
theorem rustStartsWith_incomparable (s p q : String)
    (hpq : ¬ p.data <+: q.data) (hqp : ¬ q.data <+: p.data)
    (hp : rustStartsWith s p = true) : rustStartsWith s q = false := by
  unfold rustStartsWith at hp ⊢
  rw [ List.isPrefixOf_iff_prefix] at hp
  rw [Bool.eq_false_iff, ne_eq, List.isPrefixOf_iff_prefix]
  intro hq
  rcases List.prefix_or_prefix_of_prefix hp hq with hc | hc
  · exact hpq hc
  · exact hqp hc

/-- C10: deserializing a `ButtonAction` from a string never fails, and
dispatches by precedence: a `Hyprland_Expand_` prefix yields
`HyprlandExpand`, a `KeyCombos_` prefix with at least one parsed key yields
`KeyCombos`, an `Expand_` prefix yields `Expand`, a string parsing as a
known key (and caught by no earlier case) yields `Key`, and every other
string falls through to `Command`. -/
theorem c10_deserialize_total (keyCombos : String → List Key)
    (keyParse : String → Option Key) (s : String) :
    (buttonActionDeserialize keyCombos keyParse s).isOk = true ∧
    (rustStartsWith s "Hyprland_Expand_" = true →
      buttonActionDeserialize keyCombos keyParse s =
        Except.ok (ButtonAction.HyprlandExpand s)) ∧
    (rustStartsWith s "KeyCombos_" = true → keyCombos s ≠ [] →
      buttonActionDeserialize keyCombos keyParse s =
        Except.ok (ButtonAction.KeyCombos (keyCombos s))) ∧
    (rustStartsWith s "Expand_" = true →
      buttonActionDeserialize keyCombos keyParse s =
        Except.ok (ButtonAction.Expand s)) ∧
    (rustStartsWith s "Hyprland_Expand_" = false →
      rustStartsWith s "Expand_" = false →
      (rustStartsWith s "KeyCombos_" = true → keyCombos s = []) →
      (∀ k, keyParse s = some k →
        buttonActionDeserialize keyCombos keyParse s =
          Except.ok (ButtonAction.Key k)) ∧
      (keyParse s = none →
        buttonActionDeserialize keyCombos keyParse s =
          Except.ok (ButtonAction.Command s))) := by
  refine ⟨?_, ?_, ?_, ?_, ?_⟩
  · unfold buttonActionDeserialize
    split_ifs <;>
      first
        | rfl
        | (cases hke : (keyCombos s).isEmpty <;> simp [hke] <;> rfl)
  · intro hy
    simp [buttonActionDeserialize, hy]
  · intro hkc hne
    have hy : rustStartsWith s "Hyprland_Expand_" = false :=
      rustStartsWith_incomparable s "KeyCombos_" "Hyprland_Expand_"
        (by decide) (by decide) hkc
    simp [buttonActionDeserialize, hy, hkc, List.isEmpty_iff, hne]
  · intro hex
    have hy : rustStartsWith s "Hyprland_Expand_" = false :=
      rustStartsWith_incomparable s "Expand_" "Hyprland_Expand_"
        (by decide) (by decide) hex
    have hkc : rustStartsWith s "KeyCombos_" = false :=
      rustStartsWith_incomparable s "Expand_" "KeyCombos_"
        (by decide) (by decide) hex
    simp [buttonActionDeserialize, deserializeTail, hy, hkc, hex]
  · intro hy hex hempty
    have htail : buttonActionDeserialize keyCombos keyParse s =
        Except.ok (deserializeTail keyParse s) := by
      cases hkc : rustStartsWith s "KeyCombos_" with
      | false => simp [buttonActionDeserialize, hy, hkc]
      | true =>
        simp [buttonActionDeserialize, hy, hkc, List.isEmpty_iff, hempty hkc]
    constructor
    · intro k hk
      rw [htail]
      simp [deserializeTail, hex, hk]
    · intro hk
      rw [htail]
      simp [deserializeTail, hex, hk]

/-- C10 witness: concrete dispatches — a `Hyprland_Expand_` string, and a
plain string with no key interpretation falling through to `Command`. -/
theorem c10_deserialize_total_witness :
    buttonActionDeserialize (fun _ => []) (fun _ => none)
      "Hyprland_Expand_ActiveWindow" =
      Except.ok (ButtonAction.HyprlandExpand "Hyprland_Expand_ActiveWindow") ∧
    buttonActionDeserialize (fun _ => []) (fun _ => none) "xdg-open ." =
      Except.ok (ButtonAction.Command "xdg-open .") :=
  ⟨(c10_deserialize_total (fun _ => []) (fun _ => none)
      "Hyprland_Expand_ActiveWindow").2.1 (by decide),
   ((c10_deserialize_total (fun _ => []) (fun _ => none)
      "xdg-open .").2.2.2.2 (by decide) (by decide) (fun _ => rfl)).2 rfl⟩

end TinyDfr
